import Mathlib

/-!
Verification of the moji-bridge window-focus orchestration engine.

Shallow embedding of the core logic of `src/hotkey.rs`, `src/terminal.rs`
and `src/app.rs`:

* the low-level keyboard hook callback `keyboard_hook_proc` becomes a pure
  decision function from the observed key event, key state and the three
  window handles to an outcome (consume or forward, plus the list of
  `focus_window` activation requests issued);
* the parent-chain terminal locator `find_terminal_pid` becomes a
  fuel-bounded walk over an abstract process snapshot
  (`pid -> Option (parent_pid, name)`);
* the window resolver `get_window_by_pid` becomes a first-match scan over
  the enumeration order of top-level windows;
* the paste sequencer `paste_to_terminal` becomes a trace-producing
  function parameterised by oracles for the fallible OS primitives, so
  that the order of its side effects is a first-class value;
* the resident-mode `Submit` branch of `resident_update` becomes a state
  transformer over the editor content and status message, again with the
  clipboard and delivery primitives as oracles.

Window handles (`isize` HWND values in the source) are modelled as `Int`,
process ids (`u32`) as `Nat`. Neither is subject to arithmetic in the
modelled code, only to equality tests and map lookups.
-/

namespace MojiBridge

/-! ## Keyboard hook (src/hotkey.rs) -/

/-- Virtual key code of the letter I (hotkey.rs `VK_I`). -/
def VK_I : Nat := 0x49

/-- Message identifier of a key-down event (`WM_KEYDOWN`). -/
def WM_KEYDOWN : Nat := 0x0100

/-- Result of the hook callback: `LRESULT(1)` consumes the event, a tail
call to `CallNextHookEx` forwards it to the next hook in the chain. -/
inductive HookResult where
  | consume : HookResult
  | forward : HookResult
deriving DecidableEq, Repr

/-- Observable outcome of one invocation of the hook callback: whether the
event is consumed or forwarded, and the ordered list of window handles
passed to `focus_window` (the activation requests issued). -/
structure HookOutcome where
  result : HookResult
  activations : List Int
deriving DecidableEq, Repr

/-- Pure decision core of hotkey.rs `keyboard_hook_proc`. Inputs are the
hook `code`, the `wparam` message id, the virtual key code read from the
`KBDLLHOOKSTRUCT`, the instantaneous Ctrl key state (`is_ctrl_pressed`),
the current foreground window, and the two atomic handle slots
`TERMINAL_HWND` and `OWN_MOJI_HWND` (0 meaning unset). -/
def keyboard_hook_proc (code : Int) (wparam : Nat) (vkCode : Nat)
    (ctrl : Bool) (foreground terminal own : Int) : HookOutcome :=
  if 0 ≤ code ∧ wparam = WM_KEYDOWN then
    if vkCode = VK_I ∧ ctrl then
      if terminal = 0 then
        -- hwnd not set yet: pass through
        ⟨.forward, []⟩
      else if foreground = terminal then
        -- terminal is active: focus own MojiBridge window, if registered
        if own ≠ 0 then ⟨.consume, [own]⟩ else ⟨.forward, []⟩
      else if own ≠ 0 ∧ foreground = own then
        -- own MojiBridge window is active: focus terminal
        ⟨.consume, [terminal]⟩
      else
        -- not our pair: pass to next hook
        ⟨.forward, []⟩
    else ⟨.forward, []⟩
  else ⟨.forward, []⟩

/-! ## Claims about the hook callback -/

/-- C1: with distinct set handles `T` (terminal) and `H` (helper), a
trigger chord (key-down of `I` with Ctrl held) with foreground `T` issues
exactly one activation request for `H` and consumes the event; with
foreground `H` it issues exactly one activation request for `T` and
consumes the event; with any third foreground it issues zero activation
requests and forwards the event. -/
theorem hook_toggle_pair (code : Int) (T H W : Int)
    (hc : 0 ≤ code) (hT : T ≠ 0) (hH : H ≠ 0) (hTH : T ≠ H)
    (hWT : W ≠ T) (hWH : W ≠ H) :
    keyboard_hook_proc code WM_KEYDOWN VK_I true T T H = ⟨.consume, [H]⟩ ∧
    keyboard_hook_proc code WM_KEYDOWN VK_I true H T H = ⟨.consume, [T]⟩ ∧
    keyboard_hook_proc code WM_KEYDOWN VK_I true W T H = ⟨.forward, []⟩ := by
  refine ⟨?_, ?_, ?_⟩ <;>
    simp [keyboard_hook_proc, hc, hT, hH, hTH, hWT, hWH, Ne.symm hTH]

/-- Witness for C1 at concrete handles T = 5, H = 7, W = 9. -/
theorem hook_toggle_pair_witness :
    keyboard_hook_proc 0 WM_KEYDOWN VK_I true 5 5 7 = ⟨.consume, [7]⟩ ∧
    keyboard_hook_proc 0 WM_KEYDOWN VK_I true 7 5 7 = ⟨.consume, [5]⟩ ∧
    keyboard_hook_proc 0 WM_KEYDOWN VK_I true 9 5 7 = ⟨.forward, []⟩ :=
  hook_toggle_pair 0 5 7 9 (by decide) (by decide) (by decide)
    (by decide) (by decide) (by decide)

/-- C4: whenever the terminal handle slot is unset (0), the hook forwards
every trigger chord to the next hook regardless of the foreground window
and of the helper slot, and issues zero activation requests. -/
theorem hook_terminal_unset_forwards (code : Int) (foreground own : Int)
    (hc : 0 ≤ code) :
    keyboard_hook_proc code WM_KEYDOWN VK_I true foreground 0 own =
      ⟨.forward, []⟩ := by
  simp [keyboard_hook_proc, hc]

/-- Witness for C4 at a concrete foreground 42 and helper slot 7. -/
theorem hook_terminal_unset_forwards_witness :
    keyboard_hook_proc 0 WM_KEYDOWN VK_I true 42 0 7 = ⟨.forward, []⟩ :=
  hook_terminal_unset_forwards 0 42 7 (by decide)

/-- C9: with the terminal handle set, the foreground equal to the terminal
handle, and the helper handle unset (0), the hook issues zero activation
requests and forwards the trigger chord instead of consuming it. -/
theorem hook_helper_unset_forwards (code : Int) (T : Int)
    (hc : 0 ≤ code) (hT : T ≠ 0) :
    keyboard_hook_proc code WM_KEYDOWN VK_I true T T 0 = ⟨.forward, []⟩ := by
  simp [keyboard_hook_proc, hc, hT]

/-- Witness for C9 at the concrete terminal handle 5. -/
theorem hook_helper_unset_forwards_witness :
    keyboard_hook_proc 0 WM_KEYDOWN VK_I true 5 5 0 = ⟨.forward, []⟩ :=
  hook_helper_unset_forwards 0 5 (by decide) (by decide)

/-! ## Terminal process locator (src/terminal.rs, `find_terminal_pid`) -/

/-- Allow-list of terminal-emulator executable names
(terminal.rs `TERMINAL_PROCESS_NAMES`). -/
def TERMINAL_PROCESS_NAMES : List String :=
  ["WindowsTerminal.exe", "cmd.exe", "powershell.exe", "pwsh.exe",
   "mintty.exe", "ConEmu64.exe", "ConEmu.exe", "alacritty.exe",
   "wezterm-gui.exe"]

/-- ASCII lower-casing of a single character, as used by the Rust
`eq_ignore_ascii_case` comparison. -/
def asciiLowerChar (c : Char) : Char :=
  if 65 ≤ c.toNat ∧ c.toNat ≤ 90 then Char.ofNat (c.toNat + 32) else c

/-- Case-insensitive ASCII string comparison (Rust
`str::eq_ignore_ascii_case`). -/
def eqIgnoreAsciiCase (a b : String) : Bool :=
  a.data.map asciiLowerChar = b.data.map asciiLowerChar

/-- Inner loop of `find_terminal_pid` over `TERMINAL_PROCESS_NAMES`: does
`name` match any allow-list entry case-insensitively. -/
def isTerminalName (name : String) : Bool :=
  TERMINAL_PROCESS_NAMES.any (fun t => eqIgnoreAsciiCase name t)

/-- Abstract process snapshot: the map `pid -> (parent_pid, name)` that
`find_terminal_pid` builds from one `CreateToolhelp32Snapshot` pass.
Absence models a pid missing from the snapshot. -/
def ProcessMap : Type := Nat → Option (Nat × String)

/-- Parent-chain walk of `find_terminal_pid`: the `for _ in 0..10` loop,
with the remaining iteration count as fuel. Each iteration looks the
current pid up in the snapshot (breaking out on a missing entry), returns
the current pid when its name matches the allow-list, and otherwise steps
to the parent pid. -/
def find_terminal_aux (pm : ProcessMap) : Nat → Nat → Option Nat
  | 0, _ => none
  | fuel + 1, cur =>
    match pm cur with
    | some pe =>
      if isTerminalName pe.2 then some cur
      else find_terminal_aux pm fuel pe.1
    | none => none

/-- terminal.rs `find_terminal_pid`, parameterised by the process snapshot
and the id of the current process: walk at most 10 parent links. -/
def find_terminal_pid (pm : ProcessMap) (selfPid : Nat) : Option Nat :=
  find_terminal_aux pm 10 selfPid

/-- Pid reached after following `i` parent links from `start` in snapshot
`pm` (`i = 0` is `start` itself); `none` when the chain leaves the
snapshot earlier. -/
def ancestor_pid (pm : ProcessMap) : Nat → Nat → Option Nat
  | start, 0 => some start
  | start, i + 1 =>
    match pm start with
    | some pe => ancestor_pid pm pe.1 i
    | none => none

/-- Snapshot entry (parent pid and executable name) of the process `i`
hops above `start`, when the chain is still inside the snapshot. -/
def ancestor_entry (pm : ProcessMap) (start i : Nat) : Option (Nat × String) :=
  (ancestor_pid pm start i).bind pm

/-- Does the process visited at hop `i` carry a terminal allow-list name.
Decidable form used in the hypotheses of the locator theorems. -/
def terminal_at (pm : ProcessMap) (start i : Nat) : Bool :=
  match ancestor_entry pm start i with
  | some e => isTerminalName e.2
  | none => false

/-! Auxiliary lemmas about the parent-chain walk. -/

theorem ancestor_pid_shift (pm : ProcessMap) (cur : Nat) (pe : Nat × String)
    (h : pm cur = some pe) (i : Nat) :
    ancestor_pid pm cur (i + 1) = ancestor_pid pm pe.1 i := by
  simp [ancestor_pid, h]

theorem ancestor_entry_shift (pm : ProcessMap) (cur : Nat) (pe : Nat × String)
    (h : pm cur = some pe) (i : Nat) :
    ancestor_entry pm cur (i + 1) = ancestor_entry pm pe.1 i := by
  simp only [ancestor_entry, ancestor_pid_shift pm cur pe h]

theorem terminal_at_shift (pm : ProcessMap) (cur : Nat) (pe : Nat × String)
    (h : pm cur = some pe) (i : Nat) :
    terminal_at pm cur (i + 1) = terminal_at pm pe.1 i := by
  simp only [terminal_at, ancestor_entry_shift pm cur pe h]

theorem ancestor_entry_zero (pm : ProcessMap) (start : Nat) :
    ancestor_entry pm start 0 = pm start := by
  simp [ancestor_entry, ancestor_pid]

theorem terminal_at_missing (pm : ProcessMap) (cur : Nat)
    (h : pm cur = none) (i : Nat) : terminal_at pm cur i = false := by
  cases i with
  | zero => simp [terminal_at, ancestor_entry_zero, h]
  | succ i => simp [terminal_at, ancestor_entry, ancestor_pid, h]

/-- When none of the `fuel` processes visited from `cur` matches the
allow-list, the walk returns `none`. -/
theorem find_terminal_aux_none (pm : ProcessMap) :
    ∀ fuel cur, (∀ j, j < fuel → terminal_at pm cur j = false) →
      find_terminal_aux pm fuel cur = none := by
  intro fuel
  induction fuel with
  | zero => intro cur _; rfl
  | succ fuel ih =>
    intro cur hno
    rcases hp : pm cur with _ | pe
    · simp [find_terminal_aux, hp]
    · have h0 : terminal_at pm cur 0 = false := hno 0 (Nat.succ_pos _)
      have h0' : isTerminalName pe.2 = false := by
        simpa [terminal_at, ancestor_entry_zero, hp] using h0
      have hrest : ∀ j, j < fuel → terminal_at pm pe.1 j = false := by
        intro j hj
        have := hno (j + 1) (Nat.succ_lt_succ hj)
        rwa [terminal_at_shift pm cur pe hp] at this
      simp [find_terminal_aux, hp, h0', ih pe.1 hrest]

/-- When the first match on the walk from `cur` is at hop `d < fuel`, the
walk returns the pid visited at hop `d`. -/
theorem find_terminal_aux_found (pm : ProcessMap) :
    ∀ d fuel cur, d < fuel →
      (∀ j, j < d → terminal_at pm cur j = false) →
      terminal_at pm cur d = true →
      find_terminal_aux pm fuel cur = ancestor_pid pm cur d := by
  intro d
  induction d with
  | zero =>
    intro fuel cur hfuel _ hmatch
    rcases fuel with _ | fuel'
    · exact absurd hfuel (Nat.not_lt_zero _)
    · rcases hp : pm cur with _ | pe
      · exfalso
        rw [terminal_at_missing pm cur hp] at hmatch
        exact Bool.false_ne_true hmatch
      · have hterm : isTerminalName pe.2 = true := by
          simpa [terminal_at, ancestor_entry_zero, hp] using hmatch
        simp [find_terminal_aux, hp, hterm, ancestor_pid]
  | succ d ih =>
    intro fuel cur hfuel hno hmatch
    rcases fuel with _ | fuel'
    · exact absurd hfuel (Nat.not_lt_zero _)
    · rcases hp : pm cur with _ | pe
      · exfalso
        rw [terminal_at_missing pm cur hp] at hmatch
        exact Bool.false_ne_true hmatch
      · have h0 : terminal_at pm cur 0 = false := hno 0 (Nat.succ_pos _)
        have h0' : isTerminalName pe.2 = false := by
          simpa [terminal_at, ancestor_entry_zero, hp] using h0
        have hno' : ∀ j, j < d → terminal_at pm pe.1 j = false := by
          intro j hj
          have := hno (j + 1) (Nat.succ_lt_succ hj)
          rwa [terminal_at_shift pm cur pe hp] at this
        have hmatch' : terminal_at pm pe.1 d = true := by
          rwa [terminal_at_shift pm cur pe hp] at hmatch
        have hfuel' : d < fuel' := Nat.lt_of_succ_lt_succ hfuel
        calc find_terminal_aux pm (fuel' + 1) cur
              = find_terminal_aux pm fuel' pe.1 := by
                simp [find_terminal_aux, hp, h0']
          _ = ancestor_pid pm pe.1 d := ih fuel' pe.1 hfuel' hno' hmatch'
          _ = ancestor_pid pm cur (d + 1) :=
                (ancestor_pid_shift pm cur pe hp d).symm

/-- Any positive answer of the bounded walk is the pid of a visited
process with a terminal name at some hop `d < fuel`. -/
theorem find_terminal_aux_some (pm : ProcessMap) :
    ∀ fuel cur r, find_terminal_aux pm fuel cur = some r →
      ∃ d, d < fuel ∧ terminal_at pm cur d = true ∧
        ancestor_pid pm cur d = some r := by
  intro fuel
  induction fuel with
  | zero => intro cur r h; simp [find_terminal_aux] at h
  | succ fuel ih =>
    intro cur r h
    rcases hp : pm cur with _ | pe
    · simp [find_terminal_aux, hp] at h
    · by_cases hterm : isTerminalName pe.2 = true
      · refine ⟨0, Nat.succ_pos _, ?_, ?_⟩
        · simp [terminal_at, ancestor_entry_zero, hp, hterm]
        · have : r = cur := by
            simp [find_terminal_aux, hp, hterm] at h
            exact h.symm
          simp [ancestor_pid, this]
      · have hterm' : isTerminalName pe.2 = false := by
          simpa using hterm
        have h' : find_terminal_aux pm fuel pe.1 = some r := by
          simpa [find_terminal_aux, hp, hterm'] using h
        obtain ⟨d, hd, hm, hpid⟩ := ih pe.1 r h'
        refine ⟨d + 1, Nat.succ_lt_succ hd, ?_, ?_⟩
        · rwa [terminal_at_shift pm cur pe hp]
        · rwa [ancestor_pid_shift pm cur pe hp]

/-! ## Claims about the terminal locator -/

/-- C3: the locator walks at most 10 hops upward from the current process,
comparing visited names case-insensitively against the allow-list.
Part 1: when the first terminal-named process on the chain sits at hop
`d < 10` (counting the current process as hop 0), the locator returns that
pid. Part 2: when the nearest terminal-named process sits at hop `d ≥ 10`,
the locator returns absence. -/
theorem find_terminal_pid_bounded_walk (pm : ProcessMap) (selfPid d : Nat)
    (hno : ∀ j, j < d → terminal_at pm selfPid j = false)
    (hmatch : terminal_at pm selfPid d = true) :
    (d < 10 → find_terminal_pid pm selfPid = ancestor_pid pm selfPid d) ∧
    (10 ≤ d → find_terminal_pid pm selfPid = none) := by
  constructor
  · intro hd
    exact find_terminal_aux_found pm d 10 selfPid hd hno hmatch
  · intro hd
    exact find_terminal_aux_none pm 10 selfPid
      (fun j hj => hno j (Nat.lt_of_lt_of_le hj hd))

/-- Concrete snapshot: moji-bridge (pid 100) under WindowsTerminal
(pid 50), itself under pid 1. -/
def pmNear : ProcessMap := fun p =>
  if p = 100 then some (50, "moji-bridge.exe")
  else if p = 50 then some (1, "windowsterminal.EXE")
  else none

/-- Concrete snapshot: a chain of 11 moji-like processes with the only
terminal-named ancestor exactly 10 hops above the start. -/
def pmFar : ProcessMap := fun p =>
  if p < 10 then some (p + 1, "moji-bridge.exe")
  else if p = 10 then some (11, "cmd.exe")
  else none

/-- Witness for C3: on `pmNear` the first match is at hop 1 and the
locator returns pid 50; on `pmFar` the nearest match is at hop 10 and the
locator returns absence. -/
theorem find_terminal_pid_bounded_walk_witness :
    find_terminal_pid pmNear 100 = some 50 ∧
    find_terminal_pid pmFar 0 = none := by
  constructor
  · have h := (find_terminal_pid_bounded_walk pmNear 100 1
      (by decide) (by decide)).1 (by decide)
    simpa [pmNear, ancestor_pid] using h
  · exact (find_terminal_pid_bounded_walk pmFar 0 10
      (by decide) (by decide)).2 (by decide)

/-- Concrete snapshot: a one-element cycle (the process is its own
parent) whose process name is on the terminal allow-list. -/
def pmCycle : ProcessMap := fun p =>
  if p = 1 then some (1, "cmd.exe") else none

/-- Counterexample to C5 as stated: a snapshot whose parent-link graph is
a pure cycle (pid 1 is its own parent) but whose cycling process carries a
terminal name; the locator returns pid 1, not absence. -/
theorem find_terminal_pid_cycle_counterexample :
    pmCycle 1 = some (1, "cmd.exe") ∧
    find_terminal_pid pmCycle 1 = some 1 := by
  constructor
  · rfl
  · decide

/-- C5 (amended): on every snapshot — cyclic parent graphs and missing
parent links included — the locator terminates with an answer determined
by the at most 10 visited processes: any positive answer is a
terminal-named process at hop `d < 10`, and whenever none of the first 10
visited processes carries an allow-listed name (in particular on any
non-matching cycle or truncated chain) it returns absence. -/
theorem find_terminal_pid_terminates (pm : ProcessMap) (selfPid : Nat) :
    (∀ r, find_terminal_pid pm selfPid = some r →
      ∃ d, d < 10 ∧ terminal_at pm selfPid d = true ∧
        ancestor_pid pm selfPid d = some r) ∧
    ((∀ j, j < 10 → terminal_at pm selfPid j = false) →
      find_terminal_pid pm selfPid = none) := by
  constructor
  · intro r hr
    exact find_terminal_aux_some pm 10 selfPid r hr
  · intro hno
    exact find_terminal_aux_none pm 10 selfPid hno

/-- Concrete snapshot: a two-element cycle of non-terminal processes. -/
def pmCycle2 : ProcessMap := fun p =>
  if p = 1 then some (2, "moji-bridge.exe")
  else if p = 2 then some (1, "explorer.exe")
  else none

/-- Witness for C5 (amended): on the non-matching two-cycle `pmCycle2` the
locator terminates and returns absence. -/
theorem find_terminal_pid_terminates_witness :
    find_terminal_pid pmCycle2 1 = none :=
  (find_terminal_pid_terminates pmCycle2 1).2 (by decide)

/-! ## Focus transfer primitives (hotkey.rs `focus_window`,
terminal.rs `set_foreground_window`) -/

/-- OS calls observable during a focus transfer. -/
inductive FocusEvent where
  | showWindowRestore (hwnd : Int)
  | keybdAltDown : FocusEvent
  | setForegroundCall (hwnd : Int)
  | keybdAltUp : FocusEvent
deriving DecidableEq, Repr

/-- Oracle for the OS `SetForegroundWindow` result on a given handle. -/
def FgOracle : Type := Int → Bool

/-- terminal.rs `set_foreground_window`: one `SetForegroundWindow` call,
whose boolean result is returned to the caller. -/
def set_foreground_window (os : FgOracle) (hwnd : Int) :
    List FocusEvent × Bool :=
  ([.setForegroundCall hwnd], os hwnd)

/-- hotkey.rs `focus_window`: restore the window if minimized, press Alt
synthetically, request foreground activation, release Alt. The second
component is the `SetForegroundWindow` result, which the Rust function
only logs; its return type is unit, so the boolean never reaches the
caller. -/
def focus_window (os : FgOracle) (hwnd : Int) : List FocusEvent × Bool :=
  ([.showWindowRestore hwnd, .keybdAltDown, .setForegroundCall hwnd,
    .keybdAltUp], os hwnd)

/-- Counterexample to C6 as stated: the boolean-returning activation
primitive `set_foreground_window` (the one whose result callers branch
on, cited at terminal.rs lines 187-192) performs only the foreground
request at handle 5 — its call trace contains neither the restore step
nor the synthetic Alt press/release that the claim ascribes to the
primitive. -/
theorem activate_counterexample :
    (set_foreground_window (fun _ => true) 5).1 =
      [FocusEvent.setForegroundCall 5] ∧
    FocusEvent.showWindowRestore 5 ∉ (set_foreground_window (fun _ => true) 5).1 ∧
    FocusEvent.keybdAltDown ∉ (set_foreground_window (fun _ => true) 5).1 ∧
    FocusEvent.keybdAltUp ∉ (set_foreground_window (fun _ => true) 5).1 := by
  refine ⟨rfl, ?_, ?_, ?_⟩ <;> decide

/-- C6 (amended): the engine splits the spec's activation primitive in
two. `set_foreground_window(handle)` returns a boolean that is true
exactly when the OS reports a successful foreground change, performing
only the foreground request; the hook's `focus_window(handle)` performs
the full sequence — restore if minimized, press the Alt modifier
synthetically, request foreground activation, release the modifier — and
observes the OS result but only logs it, returning nothing. -/
theorem activate_primitives (os : FgOracle) (hwnd : Int) :
    set_foreground_window os hwnd =
      ([.setForegroundCall hwnd], os hwnd) ∧
    (focus_window os hwnd).1 =
      [.showWindowRestore hwnd, .keybdAltDown, .setForegroundCall hwnd,
       .keybdAltUp] ∧
    (focus_window os hwnd).2 = os hwnd := by
  exact ⟨rfl, rfl, rfl⟩

/-! ## Process to window resolver (terminal.rs `get_window_by_pid`) -/

/-- Snapshot of the top-level window enumeration order: each entry is a
window handle paired with its owning process id, in the order
`EnumWindows` visits them. -/
abbrev WindowList : Type := List (Int × Nat)

/-- terminal.rs `get_window_by_pid` together with its callback
`enum_window_proc_by_pid`: scan the enumeration order, stop at the first
window whose owning process id equals the target, and return its handle;
`none` when the enumeration finishes without a match. -/
def get_window_by_pid : WindowList → Nat → Option Int
  | [], _ => none
  | (hwnd, owner) :: rest, target =>
    if owner = target then some hwnd else get_window_by_pid rest target

/-- C7: the resolver returns the handle of the first enumerated window
owned by the requested pid (first match wins), and absence — not an
error — when no enumerated window is owned by that pid. -/
theorem get_window_by_pid_first_match (ws : WindowList) (pid : Nat) :
    get_window_by_pid ws pid =
      (ws.find? (fun w => w.2 == pid)).map Prod.fst ∧
    ((∀ w ∈ ws, w.2 ≠ pid) → get_window_by_pid ws pid = none) := by
  constructor
  · induction ws with
    | nil => rfl
    | cons w rest ih =>
      rcases w with ⟨hwnd, owner⟩
      by_cases h : owner = pid
      · rw [List.find?_cons_of_pos _ (by simpa using h)]
        simp [get_window_by_pid, h]
      · rw [List.find?_cons_of_neg _ (by simpa using h)]
        simp [get_window_by_pid, h, ih]
  · intro hnone
    induction ws with
    | nil => rfl
    | cons w rest ih =>
      have hw : w.2 ≠ pid := hnone w (List.mem_cons_self w rest)
      simp only [get_window_by_pid]
      rw [if_neg hw]
      exact ih (fun v hv => hnone v (List.mem_cons_of_mem w hv))

/-- Witness for C7: with windows `(10, pid 3)` then `(20, pid 4)` then
`(30, pid 4)`, the resolver picks the first pid-4 window, handle 20; with
no pid-9 window it returns absence. -/
theorem get_window_by_pid_first_match_witness :
    get_window_by_pid [(10, 3), (20, 4), (30, 4)] 4 = some 20 ∧
    get_window_by_pid [(10, 3), (20, 4), (30, 4)] 9 = none := by
  constructor
  · have h := (get_window_by_pid_first_match [(10, 3), (20, 4), (30, 4)] 4).1
    simpa using h
  · exact (get_window_by_pid_first_match [(10, 3), (20, 4), (30, 4)] 9).2
      (by decide)

/-! ## Paste-and-submit sequencer (terminal.rs `paste_to_terminal`) -/

/-- Keys pressed synthetically through enigo in the paste sequence. -/
inductive EKey where
  | control : EKey
  | unicodeV : EKey
  | ret : EKey
deriving DecidableEq, Repr

/-- Direction of a synthetic key event. -/
inductive EDir where
  | press : EDir
  | click : EDir
  | release : EDir
deriving DecidableEq, Repr

/-- Side effects of `paste_to_terminal`, in execution order. -/
inductive PasteEvent where
  | setForeground (hwnd : Int)
  | sleepMs (ms : Nat)
  | enigoNew : PasteEvent
  | key (k : EKey) (d : EDir)
deriving DecidableEq, Repr

/-- Oracles for the fallible primitives the sequencer calls:
`set_foreground_window`, `Enigo::new`, and each `enigo.key` injection.
Errors carry the formatted message of the underlying failure. -/
structure PasteEnv where
  fg : Int → Bool
  enigoNew : Except String Unit
  key : EKey → EDir → Except String Unit

/-- Target-handle resolution at the top of `paste_to_terminal`: the
explicit override wins; otherwise the stored terminal pid (the
`TERMINAL_PID` once-cell filled by `init_terminal_tracking`) is resolved
to a window on demand through `get_window_by_pid`. -/
def resolve_paste_hwnd (tpid : Option Nat) (winByPid : Nat → Option Int)
    (hwnd_override : Option Int) : Except String Int :=
  match hwnd_override with
  | some h => .ok h
  | none =>
    match tpid with
    | none =>
      .error "Terminal process not found. Was init_terminal_tracking() called?"
    | some pid =>
      match winByPid pid with
      | none => .error ("Could not find window for terminal PID " ++ toString pid)
      | some h => .ok h

/-- Delivery body of `paste_to_terminal` once the target handle is known:
activate the window (aborting on failure), sleep 150 ms, create the enigo
instance, press Ctrl, click the `v` key, release Ctrl, sleep 100 ms, and
click Enter. Returns the ordered trace of side effects alongside the
result; a failing call appears in the trace (the call was made) and
aborts the remaining steps. -/
def paste_steps (env : PasteEnv) (hwnd : Int) :
    List PasteEvent × Except String Unit :=
  if env.fg hwnd then
    let tr := [PasteEvent.setForeground hwnd, .sleepMs 150, .enigoNew]
    match env.enigoNew with
    | .error e => (tr, .error ("Failed to create Enigo instance: " ++ e))
    | .ok _ =>
      let tr := tr ++ [.key .control .press]
      match env.key .control .press with
      | .error e => (tr, .error ("Failed to press Ctrl: " ++ e))
      | .ok _ =>
        let tr := tr ++ [.key .unicodeV .click]
        match env.key .unicodeV .click with
        | .error e => (tr, .error ("Failed to press V: " ++ e))
        | .ok _ =>
          let tr := tr ++ [.key .control .release]
          match env.key .control .release with
          | .error e => (tr, .error ("Failed to release Ctrl: " ++ e))
          | .ok _ =>
            let tr := tr ++ [.sleepMs 100, .key .ret .click]
            match env.key .ret .click with
            | .error e => (tr, .error ("Failed to press Enter: " ++ e))
            | .ok _ => (tr, .ok ())
  else
    ([PasteEvent.setForeground hwnd],
     .error "Failed to set foreground window")

/-- terminal.rs `paste_to_terminal`: resolve the target handle, then run
the delivery steps. A resolution failure produces an empty trace: no OS
call is made. -/
def paste_to_terminal (env : PasteEnv) (tpid : Option Nat)
    (winByPid : Nat → Option Int) (hwnd_override : Option Int) :
    List PasteEvent × Except String Unit :=
  match resolve_paste_hwnd tpid winByPid hwnd_override with
  | .error e => ([], .error e)
  | .ok hwnd => paste_steps env hwnd

/-- The full success trace of the sequencer: activate, settle 150 ms,
create enigo, paste chord (Ctrl down, v, Ctrl up), settle 100 ms, submit
Enter. -/
def paste_success_trace (hwnd : Int) : List PasteEvent :=
  [.setForeground hwnd, .sleepMs 150, .enigoNew,
   .key .control .press, .key .unicodeV .click, .key .control .release,
   .sleepMs 100, .key .ret .click]

/-- C2: when every primitive succeeds the sequencer executes exactly the
ordered trace activate, settle-delay 150 ms, paste chord (modifier down,
character key, modifier up), settle-delay 100 ms, submit keystroke; and
when activation reports failure it returns an error with the activation
attempt as its only side effect — in particular no synthetic keystroke is
injected. -/
theorem paste_to_terminal_order (env : PasteEnv) (tpid : Option Nat)
    (winByPid : Nat → Option Int) (hwnd_override : Option Int) (hwnd : Int)
    (hres : resolve_paste_hwnd tpid winByPid hwnd_override = .ok hwnd) :
    (env.fg hwnd = true → env.enigoNew = .ok () →
      (∀ k d, env.key k d = .ok ()) →
      paste_to_terminal env tpid winByPid hwnd_override =
        (paste_success_trace hwnd, .ok ())) ∧
    (env.fg hwnd = false →
      paste_to_terminal env tpid winByPid hwnd_override =
        ([.setForeground hwnd], .error "Failed to set foreground window") ∧
      ∀ k d, PasteEvent.key k d ∉
        (paste_to_terminal env tpid winByPid hwnd_override).1) := by
  constructor
  · intro hfg hnew hkey
    simp [paste_to_terminal, hres, paste_steps, hfg, hnew, hkey,
      paste_success_trace]
  · intro hfg
    have hret : paste_to_terminal env tpid winByPid hwnd_override =
        ([.setForeground hwnd], .error "Failed to set foreground window") := by
      simp [paste_to_terminal, hres, paste_steps, hfg]
    refine ⟨hret, ?_⟩
    intro k d
    rw [hret]
    simp

/-- Witness for C2 at hwnd 3 with an all-succeeding environment and at
hwnd 4 with an activation-rejecting environment. -/
theorem paste_to_terminal_order_witness :
    (paste_to_terminal ⟨fun _ => true, .ok (), fun _ _ => .ok ()⟩
        none (fun _ => none) (some 3) = (paste_success_trace 3, .ok ())) ∧
    (paste_to_terminal ⟨fun _ => false, .ok (), fun _ _ => .ok ()⟩
        none (fun _ => none) (some 4) =
      ([.setForeground 4], .error "Failed to set foreground window")) := by
  constructor
  · exact (paste_to_terminal_order ⟨fun _ => true, .ok (), fun _ _ => .ok ()⟩
      none (fun _ => none) (some 3) 3 rfl).1 rfl rfl (fun _ _ => rfl)
  · exact ((paste_to_terminal_order ⟨fun _ => false, .ok (), fun _ _ => .ok ()⟩
      none (fun _ => none) (some 4) 4 rfl).2 rfl).1

/-- C8: the sequencer resolves its effective target as the explicit
override when given; otherwise it falls back to the window of the stored
terminal pid, re-resolved through `get_window_by_pid` at this call. With
no override and the terminal pid unknown, or no window found for it, it
returns a descriptive error with an empty side-effect trace (no further
step is performed). -/
theorem paste_to_terminal_target_resolution (env : PasteEnv)
    (tpid : Option Nat) (winByPid : Nat → Option Int) :
    (∀ h, paste_to_terminal env tpid winByPid (some h) = paste_steps env h) ∧
    (tpid = none → paste_to_terminal env tpid winByPid none =
      ([], .error "Terminal process not found. Was init_terminal_tracking() called?")) ∧
    (∀ p, tpid = some p → winByPid p = none →
      paste_to_terminal env tpid winByPid none =
        ([], .error ("Could not find window for terminal PID " ++ toString p))) ∧
    (∀ p h, tpid = some p → winByPid p = some h →
      paste_to_terminal env tpid winByPid none = paste_steps env h) := by
  refine ⟨?_, ?_, ?_, ?_⟩
  · intro h
    simp [paste_to_terminal, resolve_paste_hwnd]
  · intro ht
    simp [paste_to_terminal, resolve_paste_hwnd, ht]
  · intro p ht hw
    simp [paste_to_terminal, resolve_paste_hwnd, ht, hw]
  · intro p h ht hw
    simp [paste_to_terminal, resolve_paste_hwnd, ht, hw]

/-- Witness for C8: with terminal pid 7 mapped to window 11 and no
override, the sequencer targets window 11; with no stored pid it reports
the descriptive error without performing any step. -/
theorem paste_to_terminal_target_resolution_witness :
    (paste_to_terminal ⟨fun _ => true, .ok (), fun _ _ => .ok ()⟩
        (some 7) (fun p => if p = 7 then some 11 else none) none =
      paste_steps ⟨fun _ => true, .ok (), fun _ _ => .ok ()⟩ 11) ∧
    (paste_to_terminal ⟨fun _ => true, .ok (), fun _ _ => .ok ()⟩
        none (fun _ => none) none =
      ([], .error "Terminal process not found. Was init_terminal_tracking() called?")) := by
  constructor
  · exact (paste_to_terminal_target_resolution
      ⟨fun _ => true, .ok (), fun _ _ => .ok ()⟩ (some 7)
      (fun p => if p = 7 then some 11 else none)).2.2.2 7 11 rfl rfl
  · exact (paste_to_terminal_target_resolution
      ⟨fun _ => true, .ok (), fun _ _ => .ok ()⟩ none (fun _ => none)).2.1 rfl

/-! ## Resident-mode Submit (app.rs `resident_update`, `Submit` branch) -/

/-- Line-ending normalization of the submitted text: every CRLF pair
becomes a single LF, scanning left to right over non-overlapping
occurrences (Rust `str::replace` with pattern a two-character string). -/
def replaceCRLF : List Char → List Char
  | [] => []
  | '\r' :: '\n' :: rest => '\n' :: replaceCRLF rest
  | c :: rest => c :: replaceCRLF rest

/-- Unicode White_Space property, the character class trimmed by Rust
`str::trim_end` via `char::is_whitespace`: the ASCII whitespace controls
and space, NEL, NBSP, the Ogham space mark, the general punctuation
spaces, the line and paragraph separators, the narrow no-break and
medium mathematical spaces, and the ideographic space U+3000. -/
def rustIsWhitespace (c : Char) : Bool :=
  let n := c.toNat
  (9 ≤ n && n ≤ 13) || n == 0x20 || n == 0x85 || n == 0xA0 ||
  n == 0x1680 || (0x2000 ≤ n && n ≤ 0x200A) || n == 0x2028 ||
  n == 0x2029 || n == 0x202F || n == 0x205F || n == 0x3000

/-- Removal of trailing whitespace (Rust `str::trim_end`), trimming the
full Unicode White_Space set. -/
def trimEndChars (cs : List Char) : List Char :=
  (cs.reverse.dropWhile rustIsWhitespace).reverse

/-- Text actually submitted: the editor content with line endings
normalized and trailing whitespace trimmed (app.rs lines 70-73). -/
def submit_text (s : String) : String :=
  ⟨trimEndChars (replaceCRLF s.data)⟩

/-- Editor state touched by the Submit branch: the text-editor content
and the status message line. -/
structure ResidentState where
  content : String
  status_message : Option String
deriving DecidableEq, Repr

/-- Oracles for the Submit branch: the clipboard write, the
paste-to-terminal delivery, and the terminal handle taken from the
resident configuration. -/
structure SubmitEnv where
  write_to_clipboard : String → Except String Unit
  deliver : Option Int → Except String Unit
  terminal_hwnd : Option Int

/-- Side effects of one Submit: the texts written to the clipboard and
the handles passed to `paste_to_terminal`, as attempted calls. -/
structure SubmitEffects where
  clipboard_writes : List String
  paste_calls : List (Option Int)
deriving DecidableEq, Repr

/-- app.rs `resident_update` on `ResidentMessage::Submit`: normalize and
trim the editor text; when non-empty, write it to the clipboard (on error
set the status message and stop), deliver it by `paste_to_terminal` with
the configured handle (on error set the status message and stop), and on
full success clear the editor and the status message. -/
def resident_update_submit (env : SubmitEnv) (st : ResidentState) :
    ResidentState × SubmitEffects :=
  let input_text := submit_text st.content
  if input_text = "" then (st, ⟨[], []⟩)
  else
    match env.write_to_clipboard input_text with
    | .error e =>
      ({ st with status_message := some ("Clipboard error: " ++ e) },
       ⟨[input_text], []⟩)
    | .ok _ =>
      match env.deliver env.terminal_hwnd with
      | .error e =>
        ({ st with status_message := some ("Send error: " ++ e) },
         ⟨[input_text], [env.terminal_hwnd]⟩)
      | .ok _ => (⟨"", none⟩, ⟨[input_text], [env.terminal_hwnd]⟩)

/-- C10: on Submit, a clipboard failure or a delivery failure leaves the
editor content unchanged and only sets the status message; the editor is
cleared exactly on the success path, where both the clipboard write and
the delivery succeeded; and a Submit whose text is empty after trimming
performs no clipboard write and no delivery. -/
theorem resident_submit_effects (env : SubmitEnv) (st : ResidentState) :
    (submit_text st.content ≠ "" →
      ∀ e, env.write_to_clipboard (submit_text st.content) = .error e →
        resident_update_submit env st =
          ({ st with status_message := some ("Clipboard error: " ++ e) },
           ⟨[submit_text st.content], []⟩)) ∧
    (submit_text st.content ≠ "" →
      env.write_to_clipboard (submit_text st.content) = .ok () →
      ∀ e, env.deliver env.terminal_hwnd = .error e →
        resident_update_submit env st =
          ({ st with status_message := some ("Send error: " ++ e) },
           ⟨[submit_text st.content], [env.terminal_hwnd]⟩)) ∧
    (submit_text st.content ≠ "" →
      env.write_to_clipboard (submit_text st.content) = .ok () →
      env.deliver env.terminal_hwnd = .ok () →
        resident_update_submit env st =
          (⟨"", none⟩, ⟨[submit_text st.content], [env.terminal_hwnd]⟩)) ∧
    (submit_text st.content = "" →
      resident_update_submit env st = (st, ⟨[], []⟩)) := by
  refine ⟨?_, ?_, ?_, ?_⟩
  · intro hne e hclip
    simp [resident_update_submit, hne, hclip]
  · intro hne hclip e hpaste
    simp [resident_update_submit, hne, hclip, hpaste]
  · intro hne hclip hpaste
    simp [resident_update_submit, hne, hclip, hpaste]
  · intro hempty
    simp [resident_update_submit, hempty]

/-- Witness for C10: a Submit of the text `hello` followed by CRLF with
succeeding oracles clears the editor, writes `hello` once to the
clipboard and delivers once to the configured handle 42; a Submit of
pure ASCII whitespace performs no call at all; and a Submit whose
content is a single ideographic space U+3000 is also empty after
trimming and performs no call. -/
theorem resident_submit_effects_witness :
    resident_update_submit
        ⟨fun _ => .ok (), fun _ => .ok (), some 42⟩ ⟨"hello\r\n", none⟩ =
      (⟨"", none⟩, ⟨["hello"], [some 42]⟩) ∧
    resident_update_submit
        ⟨fun _ => .ok (), fun _ => .ok (), some 42⟩ ⟨" \n", some "old"⟩ =
      (⟨" \n", some "old"⟩, ⟨[], []⟩) ∧
    resident_update_submit
        ⟨fun _ => .ok (), fun _ => .ok (), some 42⟩ ⟨"　", some "old"⟩ =
      (⟨"　", some "old"⟩, ⟨[], []⟩) := by
  refine ⟨?_, ?_, ?_⟩
  · have h := (resident_submit_effects
      ⟨fun _ => .ok (), fun _ => .ok (), some 42⟩ ⟨"hello\r\n", none⟩).2.2.1
      (by decide) rfl rfl
    simpa using h
  · exact (resident_submit_effects
      ⟨fun _ => .ok (), fun _ => .ok (), some 42⟩ ⟨" \n", some "old"⟩).2.2.2
      (by decide)
  · exact (resident_submit_effects
      ⟨fun _ => .ok (), fun _ => .ok (), some 42⟩ ⟨"　", some "old"⟩).2.2.2
      (by decide)

end MojiBridge
